import Mathlib

/-!
Verification of the HTTP instrumentation middleware of actix-otel-example.

The development shallowly embeds the two middleware layers of the repository:

* `metricsCall` embeds `HttpMetricsMiddleware::call` (src/middleware/metrics.rs,
  lines 120-181): the sequence of metric observations it emits and the outcome
  it propagates, as a function of the inbound request and of the result of the
  next pipeline stage.
* `makeSpan`, `finishRecords` and `recordTrace` embed `make_span` and
  `record_trace` (src/middleware/tracing.rs, lines 46-107): the span created
  per request, the final span attribute records, and the propagated outcome.
  The context extraction `make_span` performs via
  `global::get_text_map_propagator` is embedded by `globalPropagatorExtract`:
  since nothing in the repository installs a global propagator, the library
  default no-op propagator is in force and extraction returns the empty
  context for every carrier.

Machine values: sizes are `u64` in the source and are modelled as `Nat` with the
`2^64` bound enforced inside `parseU64` (the only place overflow can arise,
since `str::parse::<u64>` fails on overflow); status codes are `u16` values
modelled as `Nat`; the active-request counter is `i64` and its deltas are `Int`.
The wall-clock duration value is a measured `f64`; no claim depends on its
numeric value, so it is threaded through as an abstract input of the call.
-/

namespace ActixOtel

/-- Attribute value of an OTel `KeyValue` as used by the middleware:
string values (method, scheme, route) and i64 values (status code). -/
inductive AttrValue
  | str (s : String)
  | int (i : Int)
deriving DecidableEq, Repr

/-- An OTel `KeyValue` attribute. -/
structure KeyValue where
  key : String
  value : AttrValue
deriving DecidableEq, Repr

/-- Instrument name constant from src/middleware/metrics.rs line 14. -/
def HTTP_SERVER_DURATION : String := "http.server.duration"

/-- Instrument name constant from src/middleware/metrics.rs line 15. -/
def HTTP_SERVER_ACTIVE_REQUESTS : String := "http.server.active_requests"

/-- Instrument name constant from src/middleware/metrics.rs line 16. -/
def HTTP_SERVER_REQUEST_SIZE : String := "http.server.request.size"

/-- Instrument name constant from src/middleware/metrics.rs line 17. -/
def HTTP_SERVER_RESPONSE_SIZE : String := "http.server.response.size"

/-- Semantic-convention attribute key `HTTP_REQUEST_METHOD`. -/
def HTTP_REQUEST_METHOD : String := "http.request.method"

/-- Semantic-convention attribute key `URL_SCHEME`. -/
def URL_SCHEME : String := "url.scheme"

/-- Semantic-convention attribute key `HTTP_ROUTE`. -/
def HTTP_ROUTE : String := "http.route"

/-- Semantic-convention attribute key `HTTP_RESPONSE_STATUS_CODE`. -/
def HTTP_RESPONSE_STATUS_CODE : String := "http.response.status_code"

/-- Semantic-convention attribute key `URL_PATH`. -/
def URL_PATH : String := "url.path"

/-- Semantic-convention attribute key `NETWORK_PROTOCOL_VERSION`. -/
def NETWORK_PROTOCOL_VERSION : String := "network.protocol.version"

/-- Semantic-convention attribute key `CLIENT_ADDRESS`. -/
def CLIENT_ADDRESS : String := "client.address"

/-- Semantic-convention attribute key `USER_AGENT_ORIGINAL`. -/
def USER_AGENT_ORIGINAL : String := "user_agent.original"

/-- Semantic-convention attribute key `ERROR_TYPE`. -/
def ERROR_TYPE : String := "error.type"

/-- An HTTP header value: either text on which Rust `HeaderValue::to_str`
succeeds, or bytes that are not visible ASCII, on which `to_str` fails. -/
inductive HeaderValue
  | text (s : String)
  | bytes
deriving DecidableEq, Repr

/-- Embedding of `str::parse::<u64>`: an optional leading `+` sign followed by
one or more ASCII digits, failing on an empty digit string, any other
character, and overflow past `2^64 - 1`. -/
def parseU64 (s : String) : Option Nat :=
  let ds := match s.data with
    | [] => []
    | c :: rest => if c = '+' then rest else c :: rest
  if ds.isEmpty then none
  else if ds.all (fun c => c.isDigit) then
    let v := ds.foldl (fun acc c => acc * 10 + (c.toNat - 48)) 0
    if v < 18446744073709551616 then some v else none
  else none

/-- Embedding of the request-size computation of src/middleware/metrics.rs
lines 143-147: the `CONTENT_LENGTH` header is looked up, converted to text
(`to_str().ok()`), parsed as `u64`, and every failure defaults to `0`. -/
def contentLengthSize (h : Option HeaderValue) : Nat :=
  match h with
  | some (HeaderValue.text s) => (parseU64 s).getD 0
  | some HeaderValue.bytes => 0
  | none => 0

/-- Embedding of actix `BodySize`: a body of unknown absence, a sized body of
`n` bytes, or an unsized stream. -/
inductive BodySize
  | None
  | Sized (n : Nat)
  | Stream
deriving DecidableEq, Repr

/-- Embedding of the response-size computation of src/middleware/metrics.rs
lines 168-171: `BodySize::Sized(size)` yields `size`, every other body kind
yields `0`. -/
def responseBodySize (b : BodySize) : Nat :=
  match b with
  | BodySize.Sized n => n
  | _ => 0

/-- The parts of an actix `ServiceRequest` the middleware reads at entry.
`matchPattern` is what `req.match_pattern()` returns there: the framework
resolves it against the resource map from the request path, yielding the
matched route pattern, or `none` when no registered resource matches the
path. `contentLength` is the raw `CONTENT_LENGTH` header if present. -/
structure ServiceRequest where
  method : String
  scheme : String
  matchPattern : Option String
  contentLength : Option HeaderValue
deriving DecidableEq, Repr

/-- The parts of the response the middleware reads: `status().as_u16()` and
`body().size()`. -/
structure HttpResponse where
  status : Nat
  body : BodySize
deriving DecidableEq, Repr

/-- One observation applied to a metric instrument: an up/down counter `add`,
a `u64` histogram `record`, or the `f64` duration `record` (whose measured
wall-clock value is carried as the abstract input it came from). -/
inductive MetricEvent
  | add (instrument : String) (delta : Int) (attrs : List KeyValue)
  | record (instrument : String) (value : Nat) (attrs : List KeyValue)
  | recordDuration (instrument : String) (elapsed : Nat) (attrs : List KeyValue)
deriving DecidableEq, Repr

/-- Instrument name of a metric event. -/
def eventInstrument : MetricEvent → String
  | MetricEvent.add i _ _ => i
  | MetricEvent.record i _ _ => i
  | MetricEvent.recordDuration i _ _ => i

/-- Attribute set of a metric event. -/
def eventAttrs : MetricEvent → List KeyValue
  | MetricEvent.add _ _ a => a
  | MetricEvent.record _ _ a => a
  | MetricEvent.recordDuration _ _ a => a

/-- Result of one middleware call: the metric observations emitted, in program
order, and the outcome propagated to the caller. -/
structure MetricsCallResult where
  events : List MetricEvent
  outcome : Except Unit HttpResponse
deriving Repr

/-- Shallow embedding of `HttpMetricsMiddleware::call` (src/middleware/metrics.rs,
lines 120-181). The attribute vector starts with method and scheme; the
active-requests counter gets `+1` under that set; the route attribute
(`match_pattern().unwrap_or_default()`) is then pushed; the request size is
recorded. The next stage result is awaited with `?`: on an error the error
propagates at once and nothing further runs. On success the counter gets `-1`
under the method+scheme+route set, the status attribute is pushed, the request
size is recorded a second time, then the response size and the elapsed
duration, all under the full set. -/
def metricsCall (req : ServiceRequest) (next : Except Unit HttpResponse)
    (elapsed : Nat) : MetricsCallResult :=
  let attrsStart : List KeyValue :=
    [⟨HTTP_REQUEST_METHOD, AttrValue.str req.method⟩,
     ⟨URL_SCHEME, AttrValue.str req.scheme⟩]
  let incEvent := MetricEvent.add HTTP_SERVER_ACTIVE_REQUESTS 1 attrsStart
  let attrsRoute := attrsStart ++
    [⟨HTTP_ROUTE, AttrValue.str (req.matchPattern.getD "")⟩]
  let requestSize := contentLengthSize req.contentLength
  let reqSizeEvent := MetricEvent.record HTTP_SERVER_REQUEST_SIZE requestSize attrsRoute
  match next with
  | Except.error e => ⟨[incEvent, reqSizeEvent], Except.error e⟩
  | Except.ok res =>
    let decEvent := MetricEvent.add HTTP_SERVER_ACTIVE_REQUESTS (-1) attrsRoute
    let attrsFull := attrsRoute ++
      [⟨HTTP_RESPONSE_STATUS_CODE, AttrValue.int (Int.ofNat res.status)⟩]
    let reqSizeEvent2 := MetricEvent.record HTTP_SERVER_REQUEST_SIZE requestSize attrsFull
    let respSizeEvent :=
      MetricEvent.record HTTP_SERVER_RESPONSE_SIZE (responseBodySize res.body) attrsFull
    let durEvent := MetricEvent.recordDuration HTTP_SERVER_DURATION elapsed attrsFull
    ⟨[incEvent, reqSizeEvent, decEvent, reqSizeEvent2, respSizeEvent, durEvent],
     Except.ok res⟩

/-- Signed contribution of one event to the active-requests counter. -/
def activeDelta : MetricEvent → Int
  | MetricEvent.add i d _ => if i = HTTP_SERVER_ACTIVE_REQUESTS then d else 0
  | _ => 0

/-- Net change of the active-requests counter over a list of events. -/
def netActiveDelta (evs : List MetricEvent) : Int :=
  (evs.map activeDelta).sum

/-- Number of histogram records a list of events applies to an instrument. -/
def recordCount (instr : String) (evs : List MetricEvent) : Nat :=
  (evs.filter (fun e =>
    match e with
    | MetricEvent.record i _ _ => i = instr
    | MetricEvent.recordDuration i _ _ => i = instr
    | MetricEvent.add _ _ _ => false)).length

/-- Values recorded to a `u64` histogram instrument, in program order. -/
def recordedValues (instr : String) (evs : List MetricEvent) : List Nat :=
  evs.filterMap (fun e =>
    match e with
    | MetricEvent.record i v _ => if i = instr then some v else none
    | _ => none)

/-- Attribute sets of the `+1` observations on the active-requests counter. -/
def activeIncAttrs (evs : List MetricEvent) : List (List KeyValue) :=
  evs.filterMap (fun e =>
    match e with
    | MetricEvent.add i d a =>
      if i = HTTP_SERVER_ACTIVE_REQUESTS ∧ d = 1 then some a else none
    | _ => none)

/-- Attribute sets of the `-1` observations on the active-requests counter. -/
def activeDecAttrs (evs : List MetricEvent) : List (List KeyValue) :=
  evs.filterMap (fun e =>
    match e with
    | MetricEvent.add i d a =>
      if i = HTTP_SERVER_ACTIVE_REQUESTS ∧ d = -1 then some a else none
    | _ => none)

/-- Values carried by attributes under a given key, over all events. -/
def attrValuesForKey (key : String) (evs : List MetricEvent) : List AttrValue :=
  evs.foldr (fun e acc =>
    (eventAttrs e).filterMap
      (fun kv => if kv.key = key then some kv.value else none) ++ acc) []

/-- Instrument kind of the meter interface used by `Metrics::new`. -/
inductive InstrumentKind
  | f64Histogram
  | i64UpDownCounter
  | u64Histogram
deriving DecidableEq, Repr

/-- An instrument descriptor: name, description, optional unit, kind. -/
structure Instrument where
  name : String
  descr : String
  unit : Option String
  kind : InstrumentKind
deriving DecidableEq, Repr

/-- Shallow embedding of `Metrics::new` (src/middleware/metrics.rs, lines
27-61): the four instruments it creates on the meter, with the exact names,
descriptions and units passed to the builders. -/
def metricsNew : List Instrument :=
  [⟨HTTP_SERVER_DURATION,
    "Measures the duration of inbound HTTP requests.",
    some "s", InstrumentKind.f64Histogram⟩,
   ⟨HTTP_SERVER_ACTIVE_REQUESTS,
    "Measures the number of concurrent HTTP requests that are currently in-flight.",
    none, InstrumentKind.i64UpDownCounter⟩,
   ⟨HTTP_SERVER_REQUEST_SIZE,
    "Measures the size of HTTP request messages (compressed).",
    some "By", InstrumentKind.u64Histogram⟩,
   ⟨HTTP_SERVER_RESPONSE_SIZE,
    "Measures the size of HTTP response messages (compressed).",
    some "By", InstrumentKind.u64Histogram⟩]

/-- A trace context as a text-map propagator would extract it from inbound
headers (spec 3: trace id, parent span id, sampled flag). An extraction
result is an `Option TraceContext`, `none` standing for the empty context. -/
structure TraceContext where
  traceId : Nat
  parentSpanId : Nat
  sampled : Bool
deriving DecidableEq, Repr

/-- Embedding of the global text-map propagator in force in this program.
Nothing under src/ ever calls `global::set_text_map_propagator` (the
`TraceContextPropagator` import at src/middleware/tracing.rs line 9 is
unused), so `global::get_text_map_propagator` hands `make_span` the library
default: a composite propagator with no member propagators, whose `extract`
reads nothing from the carrier and returns the context unchanged. Extraction
therefore yields the empty context for every carrier, whatever headers it
holds. -/
def globalPropagatorExtract (carrier : List (String × HeaderValue)) :
    Option TraceContext :=
  none

/-- Status of a span: unset, ok, or error. -/
inductive SpanStatus
  | unset
  | ok
  | error
deriving DecidableEq, Repr

/-- The span data `make_span` determines: its name, its trace id, and its
status. The trace id comes from the parent context `set_parent` installs when
that context carries one, and is freshly generated by the tracer otherwise;
the middleware never touches the status, which stays unset. -/
structure SpanData where
  name : String
  traceId : Nat
  status : SpanStatus
deriving DecidableEq, Repr

/-- Shallow embedding of `make_span` (src/middleware/tracing.rs, lines 46-70):
the span name is the request method, a space, and
`match_pattern().unwrap_or_default()`; `set_parent` installs the context the
global propagator extracts from the request headers, so the trace id is the
extracted one when that context carries a span and a freshly generated id
otherwise (`freshTraceId` models the id the tracer generates for a root
span). In this program `globalPropagatorExtract` is the default no-op
propagator, so the extracted branch is never taken and every span is a fresh
root. All attribute fields start empty and the status starts unset. -/
def makeSpan (req : ServiceRequest) (headers : List (String × HeaderValue))
    (freshTraceId : Nat) : SpanData :=
  { name := req.method ++ " " ++ (req.matchPattern.getD "")
    traceId :=
      match globalPropagatorExtract headers with
      | some ctx => ctx.traceId
      | none => freshTraceId
    status := SpanStatus.unset }

/-- Value written by one `span.record` call: a string value, the `Debug`
rendering of the header map or of the HTTP version (kept as the data being
rendered), or the `Display` rendering of a status code. -/
inductive SpanVal
  | str (s : String)
  | debugHeaders (hs : List (String × HeaderValue))
  | debugVersion (v : String)
  | displayStatus (code : Nat)
deriving DecidableEq, Repr

/-- One `span.record(field, value)` call. -/
structure SpanRecord where
  field : String
  val : SpanVal
deriving DecidableEq, Repr

/-- The parts of the request `record_trace` reads after the next stage
returned: path, resolved route pattern, method, headers, version, peer
address, and the `User-Agent` header if any. -/
structure PostRequest where
  path : String
  matchPattern : Option String
  method : String
  headers : List (String × HeaderValue)
  version : String
  peerAddr : Option String
  userAgent : Option HeaderValue
deriving DecidableEq, Repr

/-- Embedding of `StatusCode::is_success`: the 2xx range. -/
def isSuccess (code : Nat) : Bool := 200 ≤ code && code < 300

/-- Shallow embedding of the span-finish block of `record_trace`
(src/middleware/tracing.rs, lines 85-102): the final attribute records, in
program order. Path, route (defaulted to the empty string), method, header
map, protocol version and peer address (defaulted to the empty string) are
always recorded; the user agent only when the header is present (with
`to_str().unwrap_or_default()`); the response status always; and on a
non-success status the error-type attribute, also rendered from the status. -/
def finishRecords (req : PostRequest) (status : Nat) : List SpanRecord :=
  [⟨URL_PATH, SpanVal.str req.path⟩,
   ⟨HTTP_ROUTE, SpanVal.str (req.matchPattern.getD "")⟩,
   ⟨HTTP_REQUEST_METHOD, SpanVal.str req.method⟩,
   ⟨"http.request.headers", SpanVal.debugHeaders req.headers⟩,
   ⟨NETWORK_PROTOCOL_VERSION, SpanVal.debugVersion req.version⟩,
   ⟨CLIENT_ADDRESS, SpanVal.str (req.peerAddr.getD "")⟩]
  ++ (match req.userAgent with
      | some (HeaderValue.text s) => [⟨USER_AGENT_ORIGINAL, SpanVal.str s⟩]
      | some HeaderValue.bytes => [⟨USER_AGENT_ORIGINAL, SpanVal.str ""⟩]
      | none => [])
  ++ [⟨HTTP_RESPONSE_STATUS_CODE, SpanVal.displayStatus status⟩]
  ++ (if isSuccess status then [] else [⟨ERROR_TYPE, SpanVal.displayStatus status⟩])

/-- The request-scoped value `record_trace` inserts into the request
extensions: the trace id read back from the created span. -/
structure TraceInfo where
  traceId : Nat
deriving DecidableEq, Repr

/-- Result of one `record_trace` call: the spans it created, the `TraceInfo`
it inserted, the final attribute records it applied, the final span status,
and the outcome propagated to the caller. -/
structure RecordTraceResult where
  spansCreated : List SpanData
  insertedTraceInfo : TraceInfo
  finish : List SpanRecord
  finalStatus : SpanStatus
  outcome : Except Unit HttpResponse
deriving Repr

/-- Shallow embedding of `record_trace` (src/middleware/tracing.rs, lines
72-107): one span is created by `make_span` from the request and its headers;
a `TraceInfo` carrying the span trace id is inserted into the request
extensions; the next stage is awaited with `?`, so on an error the error
propagates at once and no final attribute is recorded; on success the
span-finish block runs and the rebuilt response is returned. The span status
is never written on either path. -/
def recordTrace (req : ServiceRequest) (headers : List (String × HeaderValue))
    (freshTraceId : Nat) (next : Except Unit (PostRequest × HttpResponse)) :
    RecordTraceResult :=
  let span := makeSpan req headers freshTraceId
  let info : TraceInfo := ⟨span.traceId⟩
  match next with
  | Except.error e => ⟨[span], info, [], span.status, Except.error e⟩
  | Except.ok (postReq, res) =>
    ⟨[span], info, finishRecords postReq res.status, span.status, Except.ok res⟩

/-- Values written by span records under a given field name. -/
def spanValuesForField (f : String) (rs : List SpanRecord) : List SpanVal :=
  rs.filterMap (fun r => if r.field = f then some r.val else none)

/-! Concrete fixtures used by counterexamples and evaluations. -/

/-- A GET request to path `/` over http, no body, whose path matches the
registered `/` resource, so `match_pattern()` resolves to `/`. -/
def reqRoot : ServiceRequest := ⟨"GET", "http", some "/", none⟩

/-- A 200 response with a sized 12-byte body. -/
def resOk : HttpResponse := ⟨200, BodySize.Sized 12⟩

/-- A 500 response with an empty sized body. -/
def res500 : HttpResponse := ⟨500, BodySize.Sized 0⟩

/-- The post-call view of the GET `/` request. -/
def postRoot : PostRequest :=
  ⟨"/", some "/", "GET", [], "HTTP/1.1", some "127.0.0.1:8080", none⟩

/-- A header carrier holding a syntactically valid W3C traceparent header
whose trace id is the 128-bit value 0x0af7651916cd43dd8448eb211c80319c. -/
def traceparentHeader : List (String × HeaderValue) :=
  [("traceparent",
    HeaderValue.text "00-0af7651916cd43dd8448eb211c80319c-b7ad6b7169203331-01")]

end ActixOtel

namespace ActixOtel

/-- C1: the claim fails on the code. When the next stage returns an error, the
`?` on `fut.await` propagates it before any end-of-request observation: the
middleware emits only the `+1` increment and the first request-size record, so
the active-requests gauge nets to `+1` for the request, and neither the
duration nor the response-size histogram receives a sample. -/
theorem c1_error_path_leaks_active_gauge :
    (metricsCall reqRoot (Except.error ()) 0).events =
      [MetricEvent.add HTTP_SERVER_ACTIVE_REQUESTS 1
         [⟨HTTP_REQUEST_METHOD, AttrValue.str "GET"⟩,
          ⟨URL_SCHEME, AttrValue.str "http"⟩],
       MetricEvent.record HTTP_SERVER_REQUEST_SIZE 0
         [⟨HTTP_REQUEST_METHOD, AttrValue.str "GET"⟩,
          ⟨URL_SCHEME, AttrValue.str "http"⟩,
          ⟨HTTP_ROUTE, AttrValue.str "/"⟩]]
    ∧ netActiveDelta (metricsCall reqRoot (Except.error ()) 0).events = 1
    ∧ recordCount HTTP_SERVER_DURATION (metricsCall reqRoot (Except.error ()) 0).events = 0
    ∧ recordCount HTTP_SERVER_RESPONSE_SIZE (metricsCall reqRoot (Except.error ()) 0).events = 0
    ∧ (metricsCall reqRoot (Except.error ()) 0).outcome = Except.error () :=
  ⟨by decide, by decide, by decide, by decide, rfl⟩

/-- C2 counterexample: on the GET `/` request the attribute set passed with
the `+1` increment (method and scheme) differs from the one passed with the
`-1` decrement, which also carries the route attribute pushed before the
decrement. -/
theorem c2_attr_sets_not_identical :
    activeIncAttrs (metricsCall reqRoot (Except.ok resOk) 0).events ≠
      activeDecAttrs (metricsCall reqRoot (Except.ok resOk) 0).events := by
  decide

/-- C2 amended: for every request whose next stage succeeds, the `+1`
increment is observed under exactly the method and scheme attributes, while
the matching `-1` decrement is observed under that same set extended with the
`http.route` attribute (the pattern resolved at entry, empty when
unresolved); the two sets agree on method and scheme but are not identical. -/
theorem c2_decrement_attrs_extend_increment :
    ∀ (req : ServiceRequest) (res : HttpResponse) (t : Nat),
    activeIncAttrs (metricsCall req (Except.ok res) t).events =
      [[⟨HTTP_REQUEST_METHOD, AttrValue.str req.method⟩,
        ⟨URL_SCHEME, AttrValue.str req.scheme⟩]]
    ∧ activeDecAttrs (metricsCall req (Except.ok res) t).events =
      [[⟨HTTP_REQUEST_METHOD, AttrValue.str req.method⟩,
        ⟨URL_SCHEME, AttrValue.str req.scheme⟩,
        ⟨HTTP_ROUTE, AttrValue.str (req.matchPattern.getD "")⟩]] := by
  intro req res t
  exact ⟨rfl, rfl⟩

/-- C3: the claim fails on the code. When the next stage returns an error, the
`?` in `record_trace` propagates it before the span-finish block runs, so no
final attribute (path, route, method, version, client address, user agent,
status) is recorded on that path, while on the success path the block does
run. -/
theorem c3_error_path_skips_span_finish :
    (recordTrace reqRoot [] 7 (Except.error ())).finish = []
    ∧ (recordTrace reqRoot [] 7 (Except.error ())).outcome = Except.error ()
    ∧ (recordTrace reqRoot [] 7 (Except.ok (postRoot, resOk))).finish ≠ [] :=
  ⟨rfl, rfl, by decide⟩

/-- C4 counterexample: on the successful GET `/` request the request-size
histogram does not receive exactly one sample — the middleware records it
twice, once before dispatch and once after. -/
theorem c4_request_size_not_recorded_once :
    ¬ recordCount HTTP_SERVER_REQUEST_SIZE
        (metricsCall reqRoot (Except.ok resOk) 3).events = 1 := by
  decide

/-- C4 amended: for every request whose next stage succeeds, the duration and
response-size histograms each receive exactly one sample, while the
request-size histogram receives exactly two samples (one pre-dispatch without
the status attribute, one post-dispatch with it). -/
theorem c4_record_counts :
    ∀ (req : ServiceRequest) (res : HttpResponse) (t : Nat),
    recordCount HTTP_SERVER_DURATION (metricsCall req (Except.ok res) t).events = 1
    ∧ recordCount HTTP_SERVER_RESPONSE_SIZE (metricsCall req (Except.ok res) t).events = 1
    ∧ recordCount HTTP_SERVER_REQUEST_SIZE (metricsCall req (Except.ok res) t).events = 2 := by
  intro req res t
  exact ⟨rfl, rfl, rfl⟩

/-- C5: the claim fails on the code. The program never calls
`global::set_text_map_propagator`, so `make_span` extracts with the default
no-op propagator and gets the empty context even from a carrier holding a
syntactically valid traceparent header with trace id
0x0af7651916cd43dd8448eb211c80319c: the span is created with the freshly
generated trace id (7 here), not the inbound one, that fresh id is what the
inserted `TraceInfo` hands to handlers, and the error propagated to the
caller is only ever the next stage error. Only the no-header half of the
claim holds of the program. -/
theorem c5_inbound_trace_id_dropped :
    globalPropagatorExtract traceparentHeader = none
    ∧ (makeSpan reqRoot traceparentHeader 7).traceId = 7
    ∧ ¬ (makeSpan reqRoot traceparentHeader 7).traceId =
          0x0af7651916cd43dd8448eb211c80319c
    ∧ (recordTrace reqRoot traceparentHeader 7
        (Except.ok (postRoot, resOk))).insertedTraceInfo = ⟨7⟩
    ∧ (recordTrace reqRoot traceparentHeader 7
        (Except.ok (postRoot, resOk))).outcome = Except.ok resOk
    ∧ (makeSpan reqRoot [] 7).traceId = 7 :=
  ⟨rfl, rfl, by decide, rfl, rfl, rfl⟩

/-- C6: for the GET request to `/` with no trace header and no body,
`record_trace` creates exactly one span, and its name is the method followed
by the matched route pattern: the string GET space slash. -/
theorem c6_get_root_span :
    (recordTrace reqRoot [] 7 (Except.ok (postRoot, resOk))).spansCreated.length = 1
    ∧ (recordTrace reqRoot [] 7 (Except.ok (postRoot, resOk))).spansCreated =
        [⟨"GET /", 7, SpanStatus.unset⟩] :=
  ⟨rfl, rfl⟩

/-- C7: the request-size value recorded (in both samples the middleware takes)
is the parsed content-length when the header is present as text and parses as
a `u64`; it is `0` when the header is absent, non-text, or unparsable; and a
streaming or absent response body is recorded in the response-size histogram
as one sample of value `0`, never omitted. -/
theorem c7_size_defaulting :
    ∀ (req : ServiceRequest) (res : HttpResponse) (t : Nat),
    (∀ s n, req.contentLength = some (HeaderValue.text s) → parseU64 s = some n →
      recordedValues HTTP_SERVER_REQUEST_SIZE
        (metricsCall req (Except.ok res) t).events = [n, n])
    ∧ (req.contentLength = none →
      recordedValues HTTP_SERVER_REQUEST_SIZE
        (metricsCall req (Except.ok res) t).events = [0, 0])
    ∧ (∀ s, req.contentLength = some (HeaderValue.text s) → parseU64 s = none →
      recordedValues HTTP_SERVER_REQUEST_SIZE
        (metricsCall req (Except.ok res) t).events = [0, 0])
    ∧ (req.contentLength = some HeaderValue.bytes →
      recordedValues HTTP_SERVER_REQUEST_SIZE
        (metricsCall req (Except.ok res) t).events = [0, 0])
    ∧ (res.body = BodySize.Stream →
      recordedValues HTTP_SERVER_RESPONSE_SIZE
        (metricsCall req (Except.ok res) t).events = [0])
    ∧ (res.body = BodySize.None →
      recordedValues HTTP_SERVER_RESPONSE_SIZE
        (metricsCall req (Except.ok res) t).events = [0]) := by
  intro req res t
  have hreq : recordedValues HTTP_SERVER_REQUEST_SIZE
      (metricsCall req (Except.ok res) t).events =
      [contentLengthSize req.contentLength, contentLengthSize req.contentLength] := rfl
  have hres : recordedValues HTTP_SERVER_RESPONSE_SIZE
      (metricsCall req (Except.ok res) t).events = [responseBodySize res.body] := rfl
  refine ⟨?_, ?_, ?_, ?_, ?_, ?_⟩
  · intro s n hc hp
    rw [hreq, hc]
    simp [contentLengthSize, hp]
  · intro hc
    rw [hreq, hc]
    rfl
  · intro s hc hp
    rw [hreq, hc]
    simp [contentLengthSize, hp]
  · intro hc
    rw [hreq, hc]
    rfl
  · intro hb
    rw [hres, hb]
    rfl
  · intro hb
    rw [hres, hb]
    rfl

/-- C7 witness: a POST request carrying a content-length header of `11` with
a sized 11-byte response records `11` into the request-size histogram. -/
theorem c7_size_defaulting_witness :
    recordedValues HTTP_SERVER_REQUEST_SIZE
      (metricsCall ⟨"POST", "http", some "/echo", some (HeaderValue.text "11")⟩
        (Except.ok ⟨200, BodySize.Sized 11⟩) 0).events = [11, 11] :=
  (c7_size_defaulting ⟨"POST", "http", some "/echo", some (HeaderValue.text "11")⟩
      ⟨200, BodySize.Sized 11⟩ 0).1 "11" 11 rfl (by decide)

/-- C8 counterexample: finishing the span of a request whose response status
is 500 (a server error) does not set the span status to error — the code
never writes the span status, which stays unset. -/
theorem c8_span_status_never_error :
    ¬ (recordTrace reqRoot [] 7 (Except.ok (postRoot, res500))).finalStatus =
        SpanStatus.error := by
  decide

/-- C8 amended: the span-finish block always records the response status code
attribute exactly once, records the error-type attribute exactly when the
status is not a success status, and leaves the span status unset — it never
sets it to error, server error or not. -/
theorem c8_finish_status_and_error_type :
    ∀ (postReq : PostRequest) (status : Nat) (req : ServiceRequest)
      (hs : List (String × HeaderValue)) (f : Nat) (res : HttpResponse),
    spanValuesForField HTTP_RESPONSE_STATUS_CODE (finishRecords postReq status) =
      [SpanVal.displayStatus status]
    ∧ spanValuesForField ERROR_TYPE (finishRecords postReq status) =
      (if isSuccess status then [] else [SpanVal.displayStatus status])
    ∧ (recordTrace req hs f (Except.ok (postReq, res))).finalStatus = SpanStatus.unset := by
  intro postReq status req hs f res
  obtain ⟨p, mp, m, hdrs, v, pa, ua⟩ := postReq
  refine ⟨?_, ?_, rfl⟩
  · rcases ua with _ | hv
    · by_cases hst : isSuccess status <;>
        simp [finishRecords, spanValuesForField, hst, URL_PATH, HTTP_ROUTE,
          HTTP_REQUEST_METHOD, NETWORK_PROTOCOL_VERSION, CLIENT_ADDRESS,
          USER_AGENT_ORIGINAL, HTTP_RESPONSE_STATUS_CODE, ERROR_TYPE]
    · rcases hv with s | _ <;>
        (by_cases hst : isSuccess status <;>
          simp [finishRecords, spanValuesForField, hst, URL_PATH, HTTP_ROUTE,
            HTTP_REQUEST_METHOD, NETWORK_PROTOCOL_VERSION, CLIENT_ADDRESS,
            USER_AGENT_ORIGINAL, HTTP_RESPONSE_STATUS_CODE, ERROR_TYPE])
  · rcases ua with _ | hv
    · by_cases hst : isSuccess status <;>
        simp [finishRecords, spanValuesForField, hst, URL_PATH, HTTP_ROUTE,
          HTTP_REQUEST_METHOD, NETWORK_PROTOCOL_VERSION, CLIENT_ADDRESS,
          USER_AGENT_ORIGINAL, HTTP_RESPONSE_STATUS_CODE, ERROR_TYPE]
    · rcases hv with s | _ <;>
        (by_cases hst : isSuccess status <;>
          simp [finishRecords, spanValuesForField, hst, URL_PATH, HTTP_ROUTE,
            HTTP_REQUEST_METHOD, NETWORK_PROTOCOL_VERSION, CLIENT_ADDRESS,
            USER_AGENT_ORIGINAL, HTTP_RESPONSE_STATUS_CODE, ERROR_TYPE])

/-- C9: `Metrics::new` creates exactly the four instruments, with the names
http.server.duration (unit s), http.server.active_requests (no unit),
http.server.request.size (unit By) and http.server.response.size (unit By),
and every observation the middleware emits on any request targets one of
these four names. -/
theorem c9_instrument_names :
    ∀ (req : ServiceRequest) (next : Except Unit HttpResponse) (t : Nat),
    metricsNew.map Instrument.name =
      [HTTP_SERVER_DURATION, HTTP_SERVER_ACTIVE_REQUESTS,
       HTTP_SERVER_REQUEST_SIZE, HTTP_SERVER_RESPONSE_SIZE]
    ∧ metricsNew.map Instrument.unit = [some "s", none, some "By", some "By"]
    ∧ ∀ e ∈ (metricsCall req next t).events,
        eventInstrument e ∈ metricsNew.map Instrument.name := by
  intro req next t
  refine ⟨rfl, rfl, ?_⟩
  intro e he
  have hall : ∀ x ∈ [HTTP_SERVER_ACTIVE_REQUESTS, HTTP_SERVER_REQUEST_SIZE,
      HTTP_SERVER_ACTIVE_REQUESTS, HTTP_SERVER_REQUEST_SIZE,
      HTTP_SERVER_RESPONSE_SIZE, HTTP_SERVER_DURATION],
      x ∈ metricsNew.map Instrument.name := by decide
  cases next with
  | error err =>
    have h1 : eventInstrument e ∈
        ((metricsCall req (Except.error err) t).events).map eventInstrument :=
      List.mem_map_of_mem _ he
    rw [show ((metricsCall req (Except.error err) t).events).map eventInstrument =
        [HTTP_SERVER_ACTIVE_REQUESTS, HTTP_SERVER_REQUEST_SIZE] from rfl] at h1
    have hall2 : ∀ x ∈ [HTTP_SERVER_ACTIVE_REQUESTS, HTTP_SERVER_REQUEST_SIZE],
        x ∈ metricsNew.map Instrument.name := by decide
    exact hall2 _ h1
  | ok res =>
    have h1 : eventInstrument e ∈
        ((metricsCall req (Except.ok res) t).events).map eventInstrument :=
      List.mem_map_of_mem _ he
    rw [show ((metricsCall req (Except.ok res) t).events).map eventInstrument =
        [HTTP_SERVER_ACTIVE_REQUESTS, HTTP_SERVER_REQUEST_SIZE,
         HTTP_SERVER_ACTIVE_REQUESTS, HTTP_SERVER_REQUEST_SIZE,
         HTTP_SERVER_RESPONSE_SIZE, HTTP_SERVER_DURATION] from rfl] at h1
    exact hall _ h1

/-- C10: when no route pattern has been resolved at the point a route value is
needed, every http.route attribute the middleware attaches to its metric
observations has the empty string as value (five occurrences on the success
path, one on the error path), and the span-finish block records the
http.route field exactly once, with the empty string as value — the key is
present, never omitted. -/
theorem c10_route_defaults_empty :
    ∀ (req : ServiceRequest) (res : HttpResponse) (t : Nat) (postReq : PostRequest),
    req.matchPattern = none → postReq.matchPattern = none →
    attrValuesForKey HTTP_ROUTE (metricsCall req (Except.ok res) t).events =
      [AttrValue.str "", AttrValue.str "", AttrValue.str "",
       AttrValue.str "", AttrValue.str ""]
    ∧ attrValuesForKey HTTP_ROUTE (metricsCall req (Except.error ()) t).events =
      [AttrValue.str ""]
    ∧ spanValuesForField HTTP_ROUTE (finishRecords postReq res.status) =
      [SpanVal.str ""] := by
  intro req res t postReq h1 h2
  obtain ⟨m, sch, mp, cl⟩ := req
  obtain ⟨p, mp2, m2, hdrs, v, pa, ua⟩ := postReq
  change mp = none at h1
  change mp2 = none at h2
  subst h1
  subst h2
  refine ⟨rfl, rfl, ?_⟩
  rcases ua with _ | hv
  · by_cases hst : isSuccess res.status <;>
      simp [finishRecords, spanValuesForField, hst, URL_PATH, HTTP_ROUTE,
        HTTP_REQUEST_METHOD, NETWORK_PROTOCOL_VERSION, CLIENT_ADDRESS,
        USER_AGENT_ORIGINAL, HTTP_RESPONSE_STATUS_CODE, ERROR_TYPE]
  · rcases hv with s | _ <;>
      (by_cases hst : isSuccess res.status <;>
        simp [finishRecords, spanValuesForField, hst, URL_PATH, HTTP_ROUTE,
          HTTP_REQUEST_METHOD, NETWORK_PROTOCOL_VERSION, CLIENT_ADDRESS,
          USER_AGENT_ORIGINAL, HTTP_RESPONSE_STATUS_CODE, ERROR_TYPE])

/-- C10 witness: a GET request to an unregistered path (no resource matches,
status 404) carries http.route with the empty string on every observation. -/
theorem c10_route_defaults_empty_witness :
    attrValuesForKey HTTP_ROUTE
      (metricsCall ⟨"GET", "http", none, none⟩
        (Except.ok ⟨404, BodySize.Sized 0⟩) 0).events =
      [AttrValue.str "", AttrValue.str "", AttrValue.str "",
       AttrValue.str "", AttrValue.str ""] :=
  (c10_route_defaults_empty ⟨"GET", "http", none, none⟩ ⟨404, BodySize.Sized 0⟩ 0
      ⟨"/nosuch", none, "GET", [], "HTTP/1.1", none, none⟩ rfl rfl).1

end ActixOtel
